import Mathlib

/-!
Shallow embedding of `src/teal/wormhole/pyteal/vaa-processor.py` (the VAA
Processor PyTeal application) and proofs about its guardian quorum
verification protocol.

Modelling conventions:
* TEAL byte strings are `List Nat` (each entry a byte value).
* TEAL program failure (a failed `Assert`, an opcode error such as an
  out-of-range `Extract`, a `Btoi` of more than 8 bytes, or an
  out-of-range argument access) rejects the whole transaction group; all
  of these are modelled as `none` / an error result.
* The TEAL `extract` opcode fails when `start + length` exceeds the length
  of the byte string; `btoi` fails on inputs longer than 8 bytes and
  otherwise decodes big-endian.
* Global state (`vphash`, `gscount`, `gsexp`, guardian keys `key N`) is an
  explicit `GlobalState` record; the per-transaction scratch slot 254
  (the verified bitfield) is an explicit result value.
* `globals.py` (providing `MAX_SIGNATURES_PER_VERIFICATION_STEP`,
  `get_group_size` and `get_sig_count_in_step`) is not part of the given
  sources, so those functions are modelled from the spec, with the
  constant `maxSignaturesPerStep` abstracted as a parameter `m`.
-/

namespace VaaProcessor

/-- TEAL `Btoi`: big-endian decode of a byte string; the opcode fails on
inputs longer than 8 bytes. -/
def btoi (bs : List Nat) : Option Nat :=
  if bs.length ≤ 8 then some (bs.foldl (fun a b => a * 256 + b) 0) else none

/-- Untruncated big-endian value of a byte string (used only to state
properties about headers; the program itself goes through `btoi`). -/
def beVal (bs : List Nat) : Nat :=
  bs.foldl (fun a b => a * 256 + b) 0

/-- TEAL `Extract(bs, pos, len)`: fails when `pos + len` exceeds the
string length. -/
def extract (bs : List Nat) (pos len : Nat) : Option (List Nat) :=
  if pos + len ≤ bs.length then some ((bs.drop pos).take len) else none

/-! ### Constants from the source -/

def GOVERNANCE_CHAIN_ID_TEST : Nat := 3
def GOVERNANCE_CONTRACT_ID_TEST : Nat := 4
def PYTH2WORMHOLE_CHAIN_ID_TEST : Nat := 5
def PYTH2WORMHOLE_CONTRACT_ID_TEST : Nat := 6

def VAA_RECORD_EMITTER_CHAIN_POS : Nat := 8
def VAA_RECORD_EMITTER_CHAIN_LEN : Nat := 2
def VAA_RECORD_EMITTER_ADDR_POS : Nat := 10
def VAA_RECORD_EMITTER_ADDR_LEN : Nat := 32

/-! ### Global state and transactions -/

/-- The application's global state: `vphash`, `gsexp`, `gscount`, and
`key N : address of guardian N` (modelled as a list indexed by `N`;
`App.globalGet` of an absent key yields the empty value). -/
structure GlobalState where
  vphash : List Nat
  gsexp : Nat
  gscount : Nat
  guardianKeys : List (List Nat)
deriving DecidableEq

/-- `App.globalGet (Itob n)`: the stored key of guardian `n`. -/
def globalGetGuardian (g : GlobalState) (n : Nat) : List Nat :=
  g.guardianKeys.getD n []

/-- The fields of a group transaction read by
`check_final_verification_state` via `Gtxn[i]`: its type, its application
id, and its scratch slot 254 (`SLOTID_VERIFIED_BIT`) as read by
`ImportScratchValue`. -/
structure Gtx where
  isAppCall : Bool
  appId : Nat
  slot254 : Nat
deriving DecidableEq

/-- The fields of the current transaction read by `verify`. -/
structure VTxn where
  sender : List Nat
  appArgs : List (List Nat)
  note : List Nat
  groupIndex : Nat
  appId : Nat
deriving DecidableEq

/-! ### Step partitioner (modelled from the spec) -/

/-- Modelled from the spec: `get_group_size` from the missing
`globals.py`. Given the constant `maxSignaturesPerStep` `m` and
`guardianCount` `n`, computes `stepCount = ceil(n / m)`. -/
def get_group_size (m n : Nat) : Nat :=
  (n + m - 1) / m

/-- Modelled from the spec: `get_sig_count_in_step` from the missing
`globals.py`. The number of signers in step `i`'s range
`[i*m, min((i+1)*m, n))`. -/
def get_sig_count_in_step (m i n : Nat) : Nat :=
  min ((i + 1) * m) n - i * m

/-! ### Subroutines of the source -/

/-- `handle_governance`: returns 1. -/
def handle_governance : Nat := 1

/-- `handle_pyth_price_ticker`: returns 1. -/
def handle_pyth_price_ticker : Nat := 1

/-- `is_creator`: `Txn.sender() == Global.creator_address()`. -/
def is_creator (sender creator : List Nat) : Bool :=
  sender == creator

/-- `commit_vaa`: decodes `chainId` from payload bytes `[8,10)` and
`contractId` from payload bytes `[10,42)` (each via `Extract` then
`Btoi`), dispatches the governance handler on `(3,4)`, the price ticker
handler on chain 5 with `contractId == GOVERNANCE_CONTRACT_ID_TEST`, and
otherwise returns 0.  `none` models a TEAL program error (out-of-range
extract, or `btoi` of more than 8 bytes). -/
def commit_vaa (payload : List Nat) : Option Nat := do
  let chainBytes ← extract payload VAA_RECORD_EMITTER_CHAIN_POS VAA_RECORD_EMITTER_CHAIN_LEN
  let chainId ← btoi chainBytes
  let addrBytes ← extract payload VAA_RECORD_EMITTER_ADDR_POS VAA_RECORD_EMITTER_ADDR_LEN
  let contractId ← btoi addrBytes
  if chainId == GOVERNANCE_CHAIN_ID_TEST && contractId == GOVERNANCE_CONTRACT_ID_TEST then
    some handle_governance
  else if chainId == PYTH2WORMHOLE_CHAIN_ID_TEST && contractId == GOVERNANCE_CONTRACT_ID_TEST then
    some handle_pyth_price_ticker
  else
    some 0

/-- TEAL `SetBit(x, i, 1)` on a uint64 value; the opcode fails for bit
index 64 or above. -/
def setBitOne (x i : Nat) : Option Nat :=
  if i < 64 then some (Nat.lor x (2 ^ i)) else none

/-- The loop of `check_guardian_key_subset` at loop counter `i`, with
`remaining` iterations left (the loop runs while `i < stop`, so
`remaining = stop - i`): compares the stored global key of guardian `i`
(`App.globalGet (Itob i)`) with the 64-byte slice of the argument at
offset `i*64`, returning 0 at the first mismatch and 1 when the loop
completes. -/
def checkKeysFrom (g : GlobalState) (arg : List Nat) (i : Nat) : Nat → Option Nat
  | 0 => some 1
  | remaining + 1 =>
    match extract arg (i * 64) 64 with
    | none => none
    | some piece =>
      if globalGetGuardian g i ≠ piece then some 0
      else checkKeysFrom g arg (i + 1) remaining

/-- `check_guardian_key_subset`: for `i` from 0 while
`i < get_sig_count_in_step(Txn.group_index(), NUM_GUARDIANS)`, compare
`App.globalGet(Itob(i))` with `Extract(arg, i*64, 64)`; return 0 on the
first mismatch, else 1. -/
def check_guardian_key_subset (g : GlobalState) (m : Nat) (groupIndex : Nat)
    (arg : List Nat) : Option Nat :=
  checkKeysFrom g arg 0 (get_sig_count_in_step m groupIndex g.gscount)

/-- `check_guardian_set_size`: `NUM_GUARDIANS == Btoi(arg)` as a TEAL
boolean (`none` when `Btoi` fails). -/
def check_guardian_set_size (g : GlobalState) (arg : List Nat) : Option Nat :=
  (btoi arg).map (fun v => if g.gscount == v then 1 else 0)

/-- Outcome of a fuel-bounded TEAL loop: a returned value, a program
error (failed `Assert` or opcode error), or fuel exhaustion (the loop has
not finished within `fuel` iterations). -/
inductive LoopOut where
  | ret (v : Nat)
  | err
  | fuelOut
deriving DecidableEq

/-- The loop of `check_final_verification_state` at loop counter `i`,
with the source's update expression `i.store(i.load() + Int(0))`: while
`i < Global.group_size()`, assert that `Gtxn[i]` is an application call,
that its application id equals the current one, and that
`GetBit(ImportScratchValue(i, 254), i) == 1`; then set `i := i + 0`.
`curIdx` is the group index of the transaction running the audit:
`ImportScratchValue` compiles to the `gloads` opcode, which fails unless
the accessed transaction's index is strictly less than the current
transaction's group index (and `GetBit` errors for a bit index of 64 or
above); both failure modes, like a false assertion, yield `.err`. -/
def cfvsGo (group : List Gtx) (appId curIdx : Nat) : Nat → Nat → LoopOut
  | 0, _ => .fuelOut
  | fuel + 1, i =>
    if i < group.length then
      if (group.getD i ⟨false, 0, 0⟩).isAppCall &&
          ((group.getD i ⟨false, 0, 0⟩).appId == appId) &&
          (decide (i < curIdx) && decide (i < 64) &&
            (group.getD i ⟨false, 0, 0⟩).slot254.testBit i) then
        cfvsGo group appId curIdx fuel (i + 0)
      else .err
    else .ret 1

/-- `check_final_verification_state`, bounded by `fuel` loop iterations,
as run by the transaction at group index `curIdx`: starts its loop
counter at 0 and returns 1 when the loop exits. -/
def check_final_verification_state (fuel : Nat) (group : List Gtx) (appId curIdx : Nat) : LoopOut :=
  cfvsGo group appId curIdx fuel 0

/-- `setvphash`: asserts that the sender is the creator, that the group
has size 1, that there are exactly 2 application arguments and that the
second is 32 bytes long, then overwrites `vphash` with that argument and
approves.  `none` models rejection (failed assert, or the error from
reading an absent argument). -/
def setvphash (g : GlobalState) (creator : List Nat) (groupSize : Nat)
    (t : VTxn) : Option GlobalState := do
  let a1 ← t.appArgs[1]?
  if is_creator t.sender creator && (groupSize == 1) &&
      (t.appArgs.length == 2) && (a1.length == 32) then
    some { g with vphash := a1 }
  else
    none

/-- `verify`: stores 0 in the verified-bitfield slot, asserts the
conjunction of the group-size check against `get_group_size`, the
argument count (3), the sender check against `vphash`,
`check_guardian_set_size` and `check_guardian_key_subset`, sets bit
`Txn.group_index()` in the slot, and on the last transaction of the group
additionally asserts `check_final_verification_state` and returns the
value of `commit_vaa`; otherwise approves.

The result is `some (g, exitValue, slot254)` when the program reaches a
`Return`/`Approve` (the group is rejected by the host when
`exitValue = 0`); `none` models a program error, a failed assert, or a
finalization loop that does not finish within `fuel` iterations. -/
def verify (fuel : Nat) (m : Nat) (g : GlobalState) (group : List Gtx)
    (t : VTxn) : Option (GlobalState × Nat × Nat) := do
  let slot0 : Nat := 0
  let c1 := group.length == get_group_size m g.gscount
  let c2 := t.appArgs.length == 3
  let c3 := t.sender == g.vphash
  let a2 ← t.appArgs[2]?
  let c4 ← check_guardian_set_size g a2
  let a1 ← t.appArgs[1]?
  let c5 ← check_guardian_key_subset g m t.groupIndex a1
  if c1 && c2 && c3 && (c4 == 1) && (c5 == 1) then
    let slot ← setBitOne slot0 t.groupIndex
    if t.groupIndex == group.length - 1 then
      match check_final_verification_state fuel group t.appId t.groupIndex with
      | .ret v =>
        if v ≠ 0 then (commit_vaa t.note).map (fun r => (g, r, slot)) else none
      | _ => none
    else
      some (g, 1, slot)
  else
    none

/-! ### Concrete scenario data -/

/-- A 64-byte guardian key whose bytes all equal `b`. -/
def guardianKey (b : Nat) : List Nat := List.replicate 64 b

/-- A registry of four guardians (keys 10,11,12,13), `gscount = 4`,
`vphash = [1]`. -/
def registryFour : GlobalState :=
  ⟨[1], 0, 4, [guardianKey 10, guardianKey 11, guardianKey 12, guardianKey 13]⟩

/-- A 42-byte payload whose header encodes `emitterChainId = 5` and
`emitterAddress` decoding to 6 — the `PYTH2WORMHOLE` pair. -/
def pythPayload : List Nat :=
  List.replicate 8 0 ++ [0, 5] ++ (List.replicate 31 0 ++ [6])

/-- A 42-byte all-zero payload: its header `(0, 0)` matches neither the
governance pair `(3,4)` nor the pyth2wormhole pair `(5,6)`. -/
def unroutablePayload : List Nat := List.replicate 42 0

/-- A two-transaction group in which both steps are application calls to
application 7 and step `j`'s verified-bitfield slot has exactly bit `j`
set. -/
def finalGroupA : List Gtx := [⟨true, 7, 1⟩, ⟨true, 7, 2⟩]

/-- A two-transaction group in which both steps are application calls to
application 9 and step `j`'s verified-bitfield slot has exactly bit `j`
set. -/
def finalGroupB : List Gtx := [⟨true, 9, 1⟩, ⟨true, 9, 2⟩]

/-! ### Arithmetic helpers for the step partitioner -/

lemma mul_le_of_le_div (M q i : Nat) (h : i ≤ q) : i * M ≤ q * M :=
  Nat.mul_le_mul_right M h

lemma ceil_mul_ge (N M : Nat) (hN : 1 ≤ N) (hM : 1 ≤ M) :
    N ≤ get_group_size M N * M := by
  have h := (Nat.div_lt_iff_lt_mul hM).1
      (show (N + M - 1) / M < (N + M - 1) / M + 1 by omega)
  have hs : ((N + M - 1) / M + 1) * M = (N + M - 1) / M * M + M := Nat.succ_mul _ _
  unfold get_group_size
  omega

lemma ceil_mul_le (N M : Nat) (hM : 1 ≤ M) :
    get_group_size M N * M ≤ N + M - 1 := by
  have h := (Nat.le_div_iff_mul_le hM).1 (Nat.le_refl ((N + M - 1) / M))
  exact h

lemma lt_ceil_of_lt (N M x : Nat) (hN : 1 ≤ N) (hM : 1 ≤ M) (hx : x < N) :
    x / M < get_group_size M N := by
  by_contra h
  push_neg at h
  have h1 : get_group_size M N * M ≤ x / M * M := Nat.mul_le_mul_right M h
  have h2 : x / M * M ≤ x := (Nat.le_div_iff_mul_le hM).1 (Nat.le_refl _)
  have h3 := ceil_mul_ge N M hN hM
  omega

lemma base_lt_of_lt_ceil (N M i : Nat) (hN : 1 ≤ N) (hM : 1 ≤ M)
    (hi : i < get_group_size M N) : i * M < N := by
  have h1 : (i + 1) * M ≤ get_group_size M N * M := Nat.mul_le_mul_right M hi
  have h2 := ceil_mul_le N M hM
  have hs : (i + 1) * M = i * M + M := Nat.succ_mul _ _
  omega

lemma div_eq_of_range (M x j : Nat) (hM : 1 ≤ M) (h1 : j * M ≤ x)
    (h2 : x < (j + 1) * M) : x / M = j := by
  have hl : j ≤ x / M := (Nat.le_div_iff_mul_le hM).2 h1
  have hu : x / M < j + 1 := (Nat.div_lt_iff_lt_mul hM).2 h2
  omega

/-- C9: for all guardian-set sizes `N ≥ 1` and step capacities `M ≥ 1`,
the step partitioner yields `ceil(N/M)` steps, and the per-step signer
ranges `[i*M, i*M + sigCount i)` with `i*M + sigCount i = min ((i+1)*M) N`
partition `[0, N)` exactly (every signer index lies in exactly one step's
range); in particular `N = 5`, `M = 2` gives 3 steps with ranges
`[0,2)`, `[2,4)`, `[4,5)`. -/
theorem step_partition (N M : Nat) (hN : 1 ≤ N) (hM : 1 ≤ M) :
    get_group_size M N = N ⌈/⌉ M ∧
    (∀ i, i < get_group_size M N →
      i * M + get_sig_count_in_step M i N = min ((i + 1) * M) N) ∧
    (∀ x, x < N → ∃! i, i < get_group_size M N ∧
      i * M ≤ x ∧ x < i * M + get_sig_count_in_step M i N) ∧
    (get_group_size 2 5 = 3 ∧ get_sig_count_in_step 2 0 5 = 2 ∧
      get_sig_count_in_step 2 1 5 = 2 ∧ get_sig_count_in_step 2 2 5 = 1) := by
  refine ⟨rfl, ?_, ?_, by decide⟩
  · intro i hi
    have h1 := base_lt_of_lt_ceil N M i hN hM hi
    have hs : (i + 1) * M = i * M + M := Nat.succ_mul _ _
    unfold get_sig_count_in_step
    omega
  · intro x hx
    refine ⟨x / M, ⟨lt_ceil_of_lt N M x hN hM hx, ?_, ?_⟩, ?_⟩
    · exact (Nat.le_div_iff_mul_le hM).1 (Nat.le_refl _)
    · have h1 : x < (x / M + 1) * M :=
        (Nat.div_lt_iff_lt_mul hM).1 (Nat.lt_succ_self _)
      have hs : (x / M + 1) * M = x / M * M + M := Nat.succ_mul _ _
      unfold get_sig_count_in_step
      have h2 : x / M * M ≤ x := (Nat.le_div_iff_mul_le hM).1 (Nat.le_refl _)
      omega
    · rintro j ⟨hj, hj1, hj2⟩
      have hup : j * M + get_sig_count_in_step M j N ≤ (j + 1) * M := by
        unfold get_sig_count_in_step
        have hs : (j + 1) * M = j * M + M := Nat.succ_mul _ _
        omega
      exact (div_eq_of_range M x j hM hj1 (by omega)).symm

/-- Witness for C9 at `N = 5`, `M = 2`. -/
theorem step_partition_witness :
    get_group_size 2 5 = 5 ⌈/⌉ 2 ∧
    (∀ i, i < get_group_size 2 5 →
      i * 2 + get_sig_count_in_step 2 i 5 = min ((i + 1) * 2) 5) ∧
    (∀ x, x < 5 → ∃! i, i < get_group_size 2 5 ∧
      i * 2 ≤ x ∧ x < i * 2 + get_sig_count_in_step 2 i 5) ∧
    (get_group_size 2 5 = 3 ∧ get_sig_count_in_step 2 0 5 = 2 ∧
      get_sig_count_in_step 2 1 5 = 2 ∧ get_sig_count_in_step 2 2 5 = 1) :=
  step_partition 5 2 (by decide) (by decide)

/-! ### The payload router -/

/-- C10: the payload router reads bytes `[8,10)` and `[10,42)` of the
payload at fixed offsets, so for every payload shorter than 42 bytes the
extraction is out of range and `commit_vaa` fails (the unit aborts) with
no handler dispatched. -/
theorem commit_vaa_short_payload_errors (p : List Nat) (h : p.length < 42) :
    commit_vaa p = none := by
  have h3 : extract p VAA_RECORD_EMITTER_ADDR_POS VAA_RECORD_EMITTER_ADDR_LEN = none := by
    simp only [extract, VAA_RECORD_EMITTER_ADDR_POS, VAA_RECORD_EMITTER_ADDR_LEN,
      ite_eq_right_iff]
    omega
  cases hx : extract p VAA_RECORD_EMITTER_CHAIN_POS VAA_RECORD_EMITTER_CHAIN_LEN with
  | none => simp [commit_vaa, hx]
  | some cb =>
    cases hb : btoi cb with
    | none => simp [commit_vaa, hx, hb]
    | some ci => simp [commit_vaa, hx, hb, h3]

/-- Witness for C10 at a 41-byte payload. -/
theorem commit_vaa_short_payload_errors_witness :
    commit_vaa (List.replicate 41 0) = none :=
  commit_vaa_short_payload_errors (List.replicate 41 0) (by decide)

/-- C4: `pythPayload`'s header encodes the registered price-ticker
origin — `emitterChainId = 5` and an `emitterAddress` decoding to 6, the
pyth2wormhole pair — yet `commit_vaa` does not invoke
`handle_pyth_price_ticker` and does not succeed: it errors (the
application branch compares the decoded address with
`GOVERNANCE_CONTRACT_ID_TEST`, and decoding the 32-byte address with
`Btoi` exceeds the opcode's 8-byte limit). -/
theorem registered_origin_payload_not_dispatched :
    pythPayload.length = 42 ∧
    beVal ((pythPayload.drop VAA_RECORD_EMITTER_CHAIN_POS).take VAA_RECORD_EMITTER_CHAIN_LEN)
      = PYTH2WORMHOLE_CHAIN_ID_TEST ∧
    beVal ((pythPayload.drop VAA_RECORD_EMITTER_ADDR_POS).take VAA_RECORD_EMITTER_ADDR_LEN)
      = PYTH2WORMHOLE_CONTRACT_ID_TEST ∧
    commit_vaa pythPayload = none := by decide

/-- Counterexample for C6: the all-zero 42-byte payload's header matches
neither the governance pair `(3,4)` nor the pyth2wormhole pair `(5,6)`,
but `commit_vaa` does not return 0 on it — it errors. -/
theorem unroutable_payload_not_returned_zero :
    ¬(beVal ((unroutablePayload.drop VAA_RECORD_EMITTER_CHAIN_POS).take VAA_RECORD_EMITTER_CHAIN_LEN)
        = GOVERNANCE_CHAIN_ID_TEST ∧
      beVal ((unroutablePayload.drop VAA_RECORD_EMITTER_ADDR_POS).take VAA_RECORD_EMITTER_ADDR_LEN)
        = GOVERNANCE_CONTRACT_ID_TEST) ∧
    ¬(beVal ((unroutablePayload.drop VAA_RECORD_EMITTER_CHAIN_POS).take VAA_RECORD_EMITTER_CHAIN_LEN)
        = PYTH2WORMHOLE_CHAIN_ID_TEST ∧
      beVal ((unroutablePayload.drop VAA_RECORD_EMITTER_ADDR_POS).take VAA_RECORD_EMITTER_ADDR_LEN)
        = PYTH2WORMHOLE_CONTRACT_ID_TEST) ∧
    commit_vaa unroutablePayload ≠ some 0 := by decide

/-- C6 (amended): for every payload of full header length whose header
matches neither the governance origin nor the registered application
origin, the unit aborts with no handler invoked — but not because
`commit_vaa` returns 0: `commit_vaa` errors, since decoding the 32-byte
emitter address with `Btoi` exceeds the opcode's 8-byte limit. -/
theorem unroutable_payload_unit_aborts (p : List Nat) (hlen : 42 ≤ p.length)
    (_hg : ¬(beVal ((p.drop VAA_RECORD_EMITTER_CHAIN_POS).take VAA_RECORD_EMITTER_CHAIN_LEN)
        = GOVERNANCE_CHAIN_ID_TEST ∧
      beVal ((p.drop VAA_RECORD_EMITTER_ADDR_POS).take VAA_RECORD_EMITTER_ADDR_LEN)
        = GOVERNANCE_CONTRACT_ID_TEST))
    (_hp : ¬(beVal ((p.drop VAA_RECORD_EMITTER_CHAIN_POS).take VAA_RECORD_EMITTER_CHAIN_LEN)
        = PYTH2WORMHOLE_CHAIN_ID_TEST ∧
      beVal ((p.drop VAA_RECORD_EMITTER_ADDR_POS).take VAA_RECORD_EMITTER_ADDR_LEN)
        = PYTH2WORMHOLE_CONTRACT_ID_TEST)) :
    commit_vaa p = none := by
  have hA : extract p VAA_RECORD_EMITTER_ADDR_POS VAA_RECORD_EMITTER_ADDR_LEN
      = some ((p.drop 10).take 32) := by
    simp only [extract, VAA_RECORD_EMITTER_ADDR_POS, VAA_RECORD_EMITTER_ADDR_LEN]
    rw [if_pos (by omega)]
  have hAlen : ((p.drop 10).take 32).length = 32 := by
    simp only [List.length_take, List.length_drop]
    omega
  have hbA : btoi ((p.drop 10).take 32) = none := by
    simp only [btoi, hAlen, ite_eq_right_iff]
    omega
  cases hx : extract p VAA_RECORD_EMITTER_CHAIN_POS VAA_RECORD_EMITTER_CHAIN_LEN with
  | none => simp [commit_vaa, hx]
  | some cb =>
    cases hb : btoi cb with
    | none => simp [commit_vaa, hx, hb]
    | some ci => simp [commit_vaa, hx, hb, hA, hbA]

/-- Witness for the amended C6 at the all-zero 42-byte payload. -/
theorem unroutable_payload_unit_aborts_witness :
    commit_vaa unroutablePayload = none :=
  unroutable_payload_unit_aborts unroutablePayload (by decide) (by decide) (by decide)

/-! ### The guardian-key-subset check -/

set_option maxRecDepth 4000 in
/-- C1: at verification step 1 of a registry with 4 guardians and step
capacity 2 (signer range `[2,4)`), `check_guardian_key_subset` does not
compare the provided keys against the registry keys at the corresponding
registry indices 2 and 3: the provided subset equal to registry keys 2
and 3 is rejected (returns 0 at the first comparison), while a subset
repeating registry keys 0 and 1 is accepted (returns 1) — the comparison
uses the loop index as the registry index. -/
theorem guardian_subset_check_misindexes_registry :
    get_sig_count_in_step 2 1 registryFour.gscount = 2 ∧
    globalGetGuardian registryFour 2 = guardianKey 12 ∧
    globalGetGuardian registryFour 3 = guardianKey 13 ∧
    check_guardian_key_subset registryFour 2 1 (guardianKey 12 ++ guardianKey 13) = some 0 ∧
    check_guardian_key_subset registryFour 2 1 (guardianKey 10 ++ guardianKey 11) = some 1 := by
  decide

/-! ### The finalization audit -/

/-- If the group is nonempty and the assertion at index 0 passes, the
finalization loop never terminates: its counter is updated by `i + 0`,
so it re-examines index 0 forever, whatever the fuel. -/
lemma cfvsGo_stuck_at_zero (group : List Gtx) (appId curIdx : Nat)
    (h0 : 0 < group.length)
    (hc : ((group.getD 0 ⟨false, 0, 0⟩).isAppCall &&
        ((group.getD 0 ⟨false, 0, 0⟩).appId == appId) &&
        (decide ((0 : Nat) < curIdx) && decide ((0 : Nat) < 64) &&
          (group.getD 0 ⟨false, 0, 0⟩).slot254.testBit 0)) = true) :
    ∀ fuel, cfvsGo group appId curIdx fuel 0 = .fuelOut := by
  intro fuel
  induction fuel with
  | zero => rfl
  | succ n ih =>
    show cfvsGo group appId curIdx (n + 1) 0 = .fuelOut
    unfold cfvsGo
    rw [if_pos h0, if_pos hc]
    exact ih

/-- C2: in `finalGroupA` (size `K = 2`) every step `j` is an application
call to application 7 with bit `j` of its shared verification state set,
so all `K` finalization checks would pass — yet
`check_final_verification_state` never returns 1 for any amount of fuel:
its loop counter is advanced by `i + 0`, so it re-audits only index 0
and never reaches the other steps nor the `Return(1)`. -/
theorem final_audit_never_returns_on_valid_batch :
    (∀ j, j < finalGroupA.length →
      (finalGroupA.getD j ⟨false, 0, 0⟩).isAppCall = true ∧
      (finalGroupA.getD j ⟨false, 0, 0⟩).appId = 7 ∧
      (finalGroupA.getD j ⟨false, 0, 0⟩).slot254.testBit j = true) ∧
    ∀ fuel, check_final_verification_state fuel finalGroupA 7 1 = LoopOut.fuelOut := by
  refine ⟨by decide, ?_⟩
  exact cfvsGo_stuck_at_zero finalGroupA 7 1 (by decide) (by decide)

/-- C3: the finalization audit loop is not a terminating total function
of the group size and the per-step verification bits, and its loop
counter does not strictly increase toward the group size.  For batch
size `K = 2` with valid steps (`finalGroupB`, audited from the last
transaction, index 1), the embedded `check_final_verification_state` is
still running (`fuelOut`) for every fuel bound, because the counter
update `i := i + 0` never increases it; and for a singleton batch
(`K = 1`, audited from index 0) it errors at its very first iteration,
since `gloads` may only read a transaction index strictly below the
current one. -/
theorem final_audit_loop_diverges :
    (∀ fuel, check_final_verification_state fuel finalGroupB 9 1 = LoopOut.fuelOut) ∧
    (∀ fuel, check_final_verification_state (fuel + 1) [⟨true, 9, 1⟩] 9 0 = LoopOut.err) :=
  ⟨cfvsGo_stuck_at_zero finalGroupB 9 1 (by decide) (by decide), fun _ => rfl⟩

/-! ### The administrative operation -/

/-- A well-formed `setvphash` call: sender `[9]`, two arguments of which
the second is 32 bytes long. -/
def adminTxn : VTxn := ⟨[9], [[0], List.replicate 32 5], [], 0, 7⟩

/-- C7: `setvphash` succeeds exactly when the caller is the creator, the
group has size 1, and exactly two application arguments are supplied of
which the second is 32 bytes long; on success it overwrites `vphash`
with that argument and changes nothing else, and under any other
condition it rejects (so the stored state is unchanged). -/
theorem setvphash_spec (g : GlobalState) (creator : List Nat) (groupSize : Nat) (t : VTxn) :
    (setvphash g creator groupSize t ≠ none ↔
      (t.sender = creator ∧ groupSize = 1 ∧ t.appArgs.length = 2 ∧
        (t.appArgs.getD 1 []).length = 32)) ∧
    (∀ g', setvphash g creator groupSize t = some g' →
      g' = { g with vphash := t.appArgs.getD 1 [] }) := by
  cases h1 : t.appArgs[1]? with
  | none =>
    have hlen : t.appArgs.length ≤ 1 := List.getElem?_eq_none_iff.1 h1
    have hnone : setvphash g creator groupSize t = none := by
      simp [setvphash, h1]
    constructor
    · rw [hnone]
      simp only [ne_eq, not_true_eq_false, false_iff]
      rintro ⟨-, -, h2, -⟩
      omega
    · intro g' hg'
      rw [hnone] at hg'
      exact absurd hg' (by simp)
  | some a1 =>
    have hgd : t.appArgs.getD 1 [] = a1 := by
      simp [List.getD_eq_getElem?_getD, h1]
    have hrw : setvphash g creator groupSize t =
        if (is_creator t.sender creator && (groupSize == 1) &&
            (t.appArgs.length == 2) && (a1.length == 32)) = true
        then some { g with vphash := a1 } else none := by
      simp [setvphash, h1]
    constructor
    · rw [hrw, hgd]
      split
      case isTrue h =>
        simp only [is_creator, Bool.and_eq_true, beq_iff_eq] at h
        simp only [ne_eq, reduceCtorEq, not_false_eq_true, true_iff]
        tauto
      case isFalse h =>
        simp only [is_creator, Bool.and_eq_true, beq_iff_eq] at h
        simp only [ne_eq, not_true_eq_false, false_iff]
        tauto
    · intro g' hg'
      rw [hrw] at hg'
      split at hg'
      case isTrue h =>
        cases hg'
        rw [hgd]
      case isFalse h =>
        exact absurd hg' (by simp)

/-- Witness for C7: a creator-sent singleton call with a 32-byte second
argument succeeds. -/
theorem setvphash_spec_witness : setvphash registryFour [9] 1 adminTxn ≠ none :=
  (setvphash_spec registryFour [9] 1 adminTxn).1.mpr (by decide)

/-! ### The verification step -/

/-- C5: a verification step reaches a `Return` only if the group size
equals the step count computed for the current registry guardian count,
exactly three application arguments are supplied, the sender equals the
stored `vphash`, and the claimed guardian-set size argument decodes to
the registry's `gscount`; if any of these fails, the step is rejected. -/
theorem verify_preconditions (fuel m : Nat) (g : GlobalState) (group : List Gtx) (t : VTxn) :
    (∀ r, verify fuel m g group t = some r →
      group.length = get_group_size m g.gscount ∧
      t.appArgs.length = 3 ∧
      t.sender = g.vphash ∧
      btoi (t.appArgs.getD 2 []) = some g.gscount) ∧
    ((group.length ≠ get_group_size m g.gscount ∨ t.appArgs.length ≠ 3 ∨
      t.sender ≠ g.vphash ∨ btoi (t.appArgs.getD 2 []) ≠ some g.gscount) →
      verify fuel m g group t = none) := by
  have main : ∀ r, verify fuel m g group t = some r →
      group.length = get_group_size m g.gscount ∧
      t.appArgs.length = 3 ∧
      t.sender = g.vphash ∧
      btoi (t.appArgs.getD 2 []) = some g.gscount := by
    intro r hr
    simp only [verify, bind, Option.bind_eq_some] at hr
    obtain ⟨a2, ha2, c4, hc4, a1, ha1, c5, hc5, hrest⟩ := hr
    have hgd2 : t.appArgs.getD 2 [] = a2 := by
      simp [List.getD_eq_getElem?_getD, ha2]
    by_cases hcond : (group.length == get_group_size m g.gscount &&
        t.appArgs.length == 3 && t.sender == g.vphash && c4 == 1 && c5 == 1) = true
    case neg =>
      rw [if_neg hcond] at hrest
      exact absurd hrest (by simp)
    case pos =>
      simp only [Bool.and_eq_true, beq_iff_eq] at hcond
      obtain ⟨⟨⟨⟨h1, h2⟩, h3⟩, h4⟩, -⟩ := hcond
      refine ⟨h1, h2, h3, ?_⟩
      rw [hgd2]
      simp only [check_guardian_set_size, Option.map_eq_some'] at hc4
      obtain ⟨v, hv, hfv⟩ := hc4
      rw [hv]
      split at hfv
      case isTrue hb =>
        rw [beq_iff_eq] at hb
        rw [hb]
      case isFalse hb => omega
  refine ⟨main, ?_⟩
  intro hbad
  by_contra hne
  obtain ⟨r, hr⟩ := Option.ne_none_iff_exists'.1 hne
  exact absurd (main r hr) (by tauto)

/-- Witness for C5: a step whose sender is not the stored `vphash` is
rejected. -/
theorem verify_preconditions_witness :
    verify 1 2 registryFour finalGroupA ⟨[2], [[0], guardianKey 10 ++ guardianKey 11, [4]], [], 0, 7⟩ = none :=
  (verify_preconditions 1 2 registryFour finalGroupA
    ⟨[2], [[0], guardianKey 10 ++ guardianKey 11, [4]], [], 0, 7⟩).2
    (Or.inr (Or.inr (Or.inl (by decide))))

/-- C8: a verification step that is not the last of its unit and reaches
a `Return` leaves the global state (and hence `vphash`, `gscount`,
`gsexp` and every guardian key) unchanged, approves with value 1, and
its verified-bitfield slot holds exactly bit `Txn.group_index()`: that
bit is set and every other bit is unset. -/
theorem verify_nonfinal_frame (fuel m : Nat) (g : GlobalState) (group : List Gtx) (t : VTxn)
    (hnl : t.groupIndex ≠ group.length - 1) :
    ∀ g' v slot, verify fuel m g group t = some (g', v, slot) →
      g' = g ∧ v = 1 ∧ slot = 2 ^ t.groupIndex ∧
      Nat.testBit slot t.groupIndex = true ∧
      ∀ j, j ≠ t.groupIndex → Nat.testBit slot j = false := by
  intro g' v slot hr
  simp only [verify, bind, Option.bind_eq_some] at hr
  obtain ⟨a2, ha2, c4, hc4, a1, ha1, c5, hc5, hrest⟩ := hr
  by_cases hcond : (group.length == get_group_size m g.gscount &&
      t.appArgs.length == 3 && t.sender == g.vphash && c4 == 1 && c5 == 1) = true
  case neg =>
    rw [if_neg hcond] at hrest
    exact absurd hrest (by simp)
  case pos =>
    rw [if_pos hcond] at hrest
    simp only [Option.bind_eq_some] at hrest
    obtain ⟨slot0, hslot, hres⟩ := hrest
    rw [if_neg (by simp [hnl])] at hres
    simp only [setBitOne] at hslot
    split at hslot
    case isFalse => exact absurd hslot (by simp)
    case isTrue h64 =>
      have hslot0 : slot0 = 2 ^ t.groupIndex := by
        have h := (Option.some.inj hslot).symm
        rw [h]
        exact Nat.zero_or _
      simp only [Option.some.injEq, Prod.mk.injEq] at hres
      obtain ⟨hg', hv', hslot'⟩ := hres
      refine ⟨hg'.symm, hv'.symm, by rw [← hslot', hslot0], ?_, ?_⟩
      · rw [← hslot', hslot0, Nat.testBit_two_pow_self]
      · intro j hj
        rw [← hslot', hslot0, Nat.testBit_two_pow_of_ne (fun h => hj h.symm)]

set_option maxRecDepth 8000 in
/-- Witness for C8: step 0 of a two-step unit over `registryFour`
succeeds, leaves the registry unchanged, and its slot holds exactly
bit 0. -/
theorem verify_nonfinal_frame_witness :
    registryFour = registryFour ∧ (1 : Nat) = 1 ∧ (1 : Nat) = 2 ^ 0 ∧
    Nat.testBit 1 0 = true ∧ ∀ j, j ≠ 0 → Nat.testBit 1 j = false :=
  verify_nonfinal_frame 1 2 registryFour finalGroupA
    ⟨[1], [[0], guardianKey 10 ++ guardianKey 11, [4]], [], 0, 7⟩
    (by decide) registryFour 1 1 (by decide)

end VaaProcessor
